import Mathlib

/-!
Verification of the django-jinja template backend adapter
(`src/django_jinja/backend.py`) against its specification.

The file shallowly embeds the adapter's data model and operations:
Python dicts become association lists with in-place-update semantics,
exceptions become `Except`, lazy values become explicit thunk
constructors forced by an explicit read function, and the opaque
collaborators (the jinja2 compiler, Django's settings, `import_string`)
become function parameters.
-/

namespace DjangoJinja

/-! ## Python dict model

Association lists with Python dict semantics: `dictSet` overwrites the
value in place when the key exists and appends otherwise (preserving
insertion order), `dictUpdate` is `dict.update`, `dictGet` is lookup. -/

def dictSet {V : Type} (d : List (String × V)) (k : String) (v : V) :
    List (String × V) :=
  match d with
  | [] => [(k, v)]
  | (m, w) :: rest =>
      if m = k then (k, v) :: rest else (m, w) :: dictSet rest k v

def dictUpdate {V : Type} (d u : List (String × V)) : List (String × V) :=
  u.foldl (fun acc p => dictSet acc p.1 p.2) d

def dictGet {V : Type} (d : List (String × V)) (k : String) : Option V :=
  match d with
  | [] => none
  | (m, w) :: rest => if m = k then some w else dictGet rest k

/-! ## Python values and exception messages

`PyObj` stands for an opaque imported Python object (a callable, class
or module), identified by the dotted path it was resolved from.
`PyVal` models the values that appear in exception `args`, together
with Python's `str`/`repr` on them: `str(e)` for an exception with one
argument is `str(args[0])`, otherwise the `repr` of the args tuple. -/

structure PyObj where
  path : String
deriving DecidableEq, Repr

inductive PyVal where
  | str (s : String)
  | int (i : Int)
  | tuple (l : List PyVal)

mutual

def pyRepr : PyVal → String
  | .str s => "'" ++ s ++ "'"
  | .int i => toString i
  | .tuple l =>
      "(" ++ pyReprJoin l ++ (if l.length = 1 then ",)" else ")")

def pyReprJoin : List PyVal → String
  | [] => ""
  | [v] => pyRepr v
  | v :: rest => pyRepr v ++ ", " ++ pyReprJoin rest

end

def pyStr : PyVal → String
  | .str s => s
  | v => pyRepr v

/-- `str(e)` for a Python exception with the given `args`. -/
def excMessage : List PyVal → String
  | [] => ""
  | [a] => pyStr a
  | l => pyRepr (.tuple l)

/-- The adapter-boundary error kinds raised by the backend:
Django's `ImproperlyConfigured`, `ImportError` (from `import_string` /
`import_module` on an unresolvable dotted path), `TemplateDoesNotExist`
and `TemplateSyntaxError`. -/
inductive ConfigError where
  | improperlyConfigured (msg : String)
  | importError (path : String)
deriving DecidableEq, Repr

/-! ## Engine registry (`Jinja2.get_default`, lines 92-116, and the
`_setting_changed` receiver, lines 230-234)

`engines.all()` yields the host's configured template engines; the
registry filters them to instances of the `Jinja2` class.  The
`lru_cache` on the zero-argument staticmethod caches a successful
return value (Python's `lru_cache` does not cache a raised exception),
and `_setting_changed` clears that cache exactly when the changed
setting is named `"TEMPLATES"`. -/

/-- A configured template engine as seen by `engines.all()`: either an
instance of this adapter's `Jinja2` class or some other backend.  The
`id` stands for object identity. -/
inductive EngineInst where
  | jinja (id : Nat)
  | other (id : Nat)
deriving DecidableEq, Repr

def EngineInst.isJinja2 : EngineInst → Bool
  | .jinja _ => true
  | .other _ => false

/-- Process-wide state of the registry: the engines the host currently
has configured, and the `lru_cache` cell of `get_default`. -/
structure RegistryState where
  engines : List EngineInst
  cache : Option EngineInst
deriving DecidableEq, Repr

/-- `[engine for engine in engines.all() if isinstance(engine, Jinja2)]` -/
def jinjaEngines (engines : List EngineInst) : List EngineInst :=
  engines.filter (fun e => e.isJinja2)

/-- The body of `Jinja2.get_default` without the cache (lines 103-116). -/
def getDefaultCore (engines : List EngineInst) :
    Except ConfigError EngineInst :=
  match jinjaEngines engines with
  | [e] => .ok e
  | [] => .error (.improperlyConfigured "No Jinja2 backend is configured.")
  | _ => .error (.improperlyConfigured
      ("Several Jinja2 backends are configured. " ++
       "You must select one explicitly."))

/-- `Jinja2.get_default` with its `lru_cache`: a hit returns the cached
instance without recomputing; a miss runs the body and caches only a
successful result. -/
def get_default (s : RegistryState) :
    Except ConfigError EngineInst × RegistryState :=
  match s.cache with
  | some e => (.ok e, s)
  | none =>
      match getDefaultCore s.engines with
      | .ok e => (.ok e, { s with cache := some e })
      | .error err => (.error err, s)

/-- The `_setting_changed` signal receiver (lines 230-234): clears the
`get_default` cache exactly when the `TEMPLATES` setting changed. -/
def _setting_changed (setting : String) (s : RegistryState) : RegistryState :=
  if setting = "TEMPLATES" then { s with cache := none } else s

/-! ## Requests, render contexts and the lazy CSRF token

A request carries what `django.middleware.csrf.get_token` would return
for it (`none` models "no token provided").  `World.tokenCalls` counts
invocations of the token provider; the count is threaded only through
`get_token`, so a context value that still holds the unevaluated
`lazyToken` thunk has, by construction, never invoked the provider. -/

structure Request where
  token : Option String
deriving DecidableEq, Repr

structure World where
  tokenCalls : Nat
deriving DecidableEq, Repr

/-- `django.middleware.csrf.get_token(request)`, instrumented with an
invocation counter. -/
def get_token (r : Request) (w : World) : Option String × World :=
  (r.token, { w with tokenCalls := w.tokenCalls + 1 })

/-- `django.utils.encoding.smart_text`: text encoding of an
already-textual token. -/
def smart_text (s : String) : String := s

/-- Values stored in a render context.  `lazyToken r memo` is the
`SimpleLazyObject(_get_val)` of lines 51-59: an unevaluated thunk over
the request while `memo = none`, and the memoized result after its
first read. -/
inductive CtxVal where
  | int (i : Int)
  | str (s : String)
  | req (r : Request)
  | lazyToken (r : Request) (memo : Option String)
deriving DecidableEq, Repr

abbrev Ctx := List (String × CtxVal)

/-- Reading a context value, forcing a `SimpleLazyObject`: the first
read of an unevaluated `lazyToken` runs `_get_val` (lines 51-56) —
one `get_token` call, substituting `"NOTPROVIDED"` for a missing token
and `smart_text` of the token otherwise — and memoizes; any other read
performs no provider call.  Returns the observed value, the updated
stored value, and the world. -/
def readLazy (v : CtxVal) (w : World) : CtxVal × CtxVal × World :=
  match v with
  | .lazyToken r none =>
      let p := get_token r w
      let s := match p.1 with
        | none => "NOTPROVIDED"
        | some t => smart_text t
      (.str s, .lazyToken r (some s), p.2)
  | .lazyToken r (some s) => (.str s, .lazyToken r (some s), w)
  | v => (v, v, w)

/-- A compiled template owned by the underlying jinja2 compiler: an
opaque render capability. -/
structure CompiledTemplate where
  render : Ctx → String

/-- A Python traceback (the failure location attached to a raised
exception). -/
structure Traceback where
  frames : List String
deriving DecidableEq, Repr

/-- Outcome of `env.get_template(name)` in the underlying compiler:
found, `jinja2.TemplateNotFound`, or `jinja2.TemplateSyntaxError`,
the exceptions carrying their `args` and traceback. -/
inductive JinjaLookup where
  | found (t : CompiledTemplate)
  | notFound (args : List PyVal) (tb : Traceback)
  | templateSyntaxError (args : List PyVal) (tb : Traceback)

/-! ## Environment, options and the adapter -/

/-- A value configured in the `filters`/`tests`/`globals`/`constants`
options: a string (a dotted reference for the first three categories, a
plain value for constants), a non-string literal, or an already-imported
object. -/
inductive BuiltinVal where
  | str (s : String)
  | int (i : Int)
  | obj (o : PyObj)
deriving DecidableEq, Repr

/-- A value installed into the environment's filter/test/global
namespaces: a literal or an imported object. -/
inductive EnvVal where
  | strLit (s : String)
  | intLit (i : Int)
  | obj (o : PyObj)
deriving DecidableEq, Repr

/-- Installing a `BuiltinVal` as a literal (no reference resolution). -/
def literalVal : BuiltinVal → EnvVal
  | .str s => .strLit s
  | .int i => .intLit i
  | .obj o => .obj o

/-- The `undefined` class handed to the environment factory:
`jinja2.Undefined`, `jinja2.DebugUndefined`, or a custom class. -/
inductive UndefinedCls where
  | Undefined
  | DebugUndefined
  | custom (o : PyObj)
deriving DecidableEq, Repr

/-- The caller-supplied `undefined` option: a dotted-path string or an
actual class. -/
inductive UndefinedOpt where
  | str (s : String)
  | cls (c : UndefinedCls)
deriving DecidableEq, Repr

/-- The `loader` option: the default `jinja2.FileSystemLoader` over the
engine's template directories, or a caller-supplied loader. -/
inductive LoaderOpt where
  | fileSystem (dirs : List String)
  | custom (o : PyObj)
deriving DecidableEq, Repr

/-- The option set actually passed to the environment factory at line
157, after the pops of lines 122-136 and the `setdefault`s of lines
145-148 and 152-155. -/
structure FactoryOptions where
  undefined : UndefinedCls
  loader : LoaderOpt
  extensions : List String
  auto_reload : Bool
  autoescape : Bool
deriving Repr

/-- The jinja2 environment: the three mutable builtin namespaces the
adapter installs into, plus the compiler's opaque capabilities. -/
structure Environment where
  filters : List (String × EnvVal)
  tests : List (String × EnvVal)
  globals : List (String × EnvVal)
  from_string : String → CompiledTemplate
  get_template : String → JinjaLookup

/-- The `OPTIONS` sub-record of the configuration (§6 enumerates the
recognized keys); `none` models an absent key, so `options.pop(k, d)`
becomes `getD d`. -/
structure JinjaOptions where
  app_dirname : Option String
  newstyle_gettext : Option Bool
  context_processors : Option (List String)
  match_extension : Option String
  match_regex : Option (String → Bool)
  environment : Option String
  filters : Option (List (String × BuiltinVal))
  tests : Option (List (String × BuiltinVal))
  globals : Option (List (String × BuiltinVal))
  constants : Option (List (String × BuiltinVal))
  translation_engine : Option String
  debug : Option Bool
  undefined : Option UndefinedOpt
  loader : Option LoaderOpt
  extensions : Option (List String)
  auto_reload : Option Bool
  autoescape : Option Bool

/-- An `OPTIONS` record with every key absent. -/
def JinjaOptions.empty : JinjaOptions :=
  { app_dirname := none, newstyle_gettext := none,
    context_processors := none, match_extension := none,
    match_regex := none, environment := none, filters := none,
    tests := none, globals := none, constants := none,
    translation_engine := none, debug := none, undefined := none,
    loader := none, extensions := none, auto_reload := none,
    autoescape := none }

/-- The constructor's input: the engine's resolved template directories
(`self.template_dirs` from `BaseEngine`) and the `OPTIONS` record. -/
structure Params where
  template_dirs : List String
  OPTIONS : JinjaOptions

/-- The host settings the adapter reads. -/
structure Settings where
  DEBUG : Bool
  USE_I18N : Bool
deriving DecidableEq, Repr

/-- `import_string` / `import_module`: dotted-path resolution supplied
by the host; `none` models an unresolvable path (ImportError). -/
def Resolver := String → Option PyObj

/-- The opaque external capabilities the constructor calls into: the
reference resolvers, the environment factory (`environment_cls(**options)`),
the gettext installers, and the two `base` module initializers
(`_initialize_thirdparty`, `_initialize_bytecode_cache`, lines
175-176; the `base` module is not under `src/` and the spec gives them
no failure surface, so they are opaque total transformations of the
environment). -/
structure Collab where
  import_string : Resolver
  import_module : String → Option PyObj
  applyFactory : PyObj → FactoryOptions → Environment
  install_gettext_translations : Environment → PyObj → Bool → Environment
  install_null_translations : Environment → Bool → Environment
  initialize_thirdparty : Environment → Environment
  initialize_bytecode_cache : Environment → Environment

/-- `import_string(path)` as an `Except`: resolution failure raises. -/
def importString (R : Resolver) (path : String) : Except ConfigError PyObj :=
  match R path with
  | some o => .ok o
  | none => .error (.importError path)

/-- Lines 138-148: pop `undefined`; a caller-supplied string is
resolved through the dotted-reference funnel (`utils.load_class`;
modelled from the spec: the `utils` module is not under `src/`, and §9
models all dotted-string reference resolution as one `resolveReference`
funnel shared with `import_string`); a caller-supplied class is kept;
when nothing was supplied, the `setdefault` of lines 145-148 picks
`jinja2.DebugUndefined` under `settings.DEBUG` and `jinja2.Undefined`
otherwise. -/
def resolveUndefined (R : Resolver) (debug : Bool)
    (u : Option UndefinedOpt) : Except ConfigError UndefinedCls :=
  match u with
  | some (.str s) =>
      match R s with
      | some o => .ok (.custom o)
      | none => .error (.importError s)
  | some (.cls c) => .ok c
  | none => .ok (if debug then .DebugUndefined else .Undefined)

/-- The `insert` closure of lines 179-183: a string value is resolved
with `import_string` and the resolved object installed; any other value
is installed as-is. -/
def insert (R : Resolver) (data : List (String × EnvVal))
    (name : String) (value : BuiltinVal) :
    Except ConfigError (List (String × EnvVal)) :=
  match value with
  | .str s =>
      match R s with
      | some o => .ok (dictSet data name (.obj o))
      | none => .error (.importError s)
  | .int i => .ok (dictSet data name (.intLit i))
  | .obj o => .ok (dictSet data name (.obj o))

/-- One of the `for name, value in ....items(): insert(...)` loops of
lines 185-195, raising at the first unresolvable reference. -/
def insertAll (R : Resolver) (data : List (String × EnvVal)) :
    List (String × BuiltinVal) → Except ConfigError (List (String × EnvVal))
  | [] => .ok data
  | (n, v) :: rest =>
      match insert R data n v with
      | .ok d => insertAll R d rest
      | .error e => .error e

/-- The constants loop of lines 197-199: each value written into the
globals namespace as-is, with no reference resolution. -/
def setAll (data : List (String × EnvVal)) :
    List (String × BuiltinVal) → List (String × EnvVal)
  | [] => data
  | (n, v) :: rest => setAll (dictSet data n (literalVal v)) rest

/-- `Jinja2._initialize_builtins` (lines 178-199): filters, tests and
globals entries go through `insert` (string values resolved as dotted
references); constants entries are then written into the globals
namespace as literal values. -/
def _initialize_builtins (R : Resolver) (env : Environment)
    (filters tests globals constants : List (String × BuiltinVal)) :
    Except ConfigError Environment :=
  match insertAll R env.filters filters with
  | .error e => .error e
  | .ok f =>
      match insertAll R env.tests tests with
      | .error e => .error e
      | .ok t =>
          match insertAll R env.globals globals with
          | .error e => .error e
          | .ok g =>
              .ok { env with
                    filters := f
                    tests := t
                    globals := setAll g constants }

/-- Modelled from the spec: `builtins.DEFAULT_EXTENSIONS` (the
`builtins` module is not under `src/`); §4.1 calls it "the adapter's
built-in extension set", an opaque list of extension identifiers. -/
def DEFAULT_EXTENSIONS : List String :=
  ["django_jinja.builtins.DEFAULT_EXTENSIONS"]

/-- The adapter instance after construction.  `_context_processors`
holds the *unresolved* dotted paths exactly as stored at line 159. -/
structure Jinja2 where
  app_dirname : String
  tmpl_debug : Bool
  env : Environment
  envOptions : FactoryOptions
  _context_processors : List String
  _match_regex : Option (String → Bool)
  _match_extension : String

/-- Lines 163-168: under `USE_I18N`, import the configured translation
engine module (raising on an unresolvable module path) and install its
gettext translations; otherwise install null translations. -/
def installTranslations (C : Collab) (S : Settings)
    (translation_engine : String) (newstyle : Bool) (env : Environment) :
    Except ConfigError Environment :=
  if S.USE_I18N then
    match C.import_module translation_engine with
    | some translation =>
        .ok (C.install_gettext_translations env translation newstyle)
    | none => .error (.importError translation_engine)
  else
    .ok (C.install_null_translations env newstyle)

/-- `Jinja2.__init__` (lines 118-176), in source order: pop the known
options with their defaults, resolve the `undefined` policy, import the
environment class, fill the factory-option `setdefault`s, build the
environment, store the context-processor paths unresolved, install
translations, run `_initialize_builtins`, then the `base`
initializers. -/
def Jinja2.init (C : Collab) (S : Settings) (params : Params) :
    Except ConfigError Jinja2 :=
  let options := params.OPTIONS
  match resolveUndefined C.import_string S.DEBUG options.undefined with
  | .error e => .error e
  | .ok undef =>
      match importString C.import_string
          (options.environment.getD "jinja2.Environment") with
      | .error e => .error e
      | .ok environment_cls =>
          let envOptions : FactoryOptions :=
            { undefined := undef
              loader := options.loader.getD (.fileSystem params.template_dirs)
              extensions := options.extensions.getD DEFAULT_EXTENSIONS
              auto_reload := options.auto_reload.getD S.DEBUG
              autoescape := options.autoescape.getD true }
          let env := C.applyFactory environment_cls envOptions
          match installTranslations C S
              (options.translation_engine.getD "django.utils.translation")
              (options.newstyle_gettext.getD true) env with
          | .error e => .error e
          | .ok env =>
              match _initialize_builtins C.import_string env
                  (options.filters.getD []) (options.tests.getD [])
                  (options.globals.getD []) (options.constants.getD []) with
              | .error e => .error e
              | .ok env =>
                  .ok { app_dirname := options.app_dirname.getD "templates"
                        tmpl_debug := options.debug.getD false
                        env := C.initialize_bytecode_cache
                          (C.initialize_thirdparty env)
                        envOptions := envOptions
                        _context_processors :=
                          options.context_processors.getD []
                        _match_regex := options.match_regex
                        _match_extension :=
                          options.match_extension.getD ".jinja" }

/-- The `tuple(import_string(path) for path in ...)` of line 203:
resolve the paths left to right, raising at the first unresolvable
one. -/
def resolveAll (R : Resolver) : List String → Except ConfigError (List PyObj)
  | [] => .ok []
  | path :: rest =>
      match R path with
      | some o =>
          match resolveAll R rest with
          | .ok os => .ok (o :: os)
          | .error e => .error e
      | none => .error (.importError path)

/-- The `context_processors` `cached_property` (lines 201-203):
resolves each stored dotted path on first access — not at
construction. -/
def Jinja2.context_processors (R : Resolver) (j : Jinja2) :
    Except ConfigError (List PyObj) :=
  resolveAll R j._context_processors

/-- Python's `str.endswith` on the character sequence. -/
def strEndsWith (s post : String) : Bool :=
  post.data.isSuffixOf s.data

/-- Modelled from the spec: `base.match_template` (the `base` module is
not under `src/`).  §4.5: "If a regex rule is configured, return
whether the full name matches it.  Otherwise return whether the name
ends with the configured extension suffix."  A regex is embedded as the
opaque predicate it decides on a name. -/
def match_template (template_name : String)
    (regex : Option (String → Bool)) (extension : String) : Bool :=
  match regex with
  | some p => p template_name
  | none => strEndsWith template_name extension

/-- `Jinja2.match_template` (lines 212-215). -/
def Jinja2.match_template (j : Jinja2) (template_name : String) : Bool :=
  DjangoJinja.match_template template_name j._match_regex j._match_extension

/-! ## Template wrapper -/

/-- The `Template` wrapper (lines 40-44): the compiled template, the
back-reference to the owning backend, and `_debug`, which `__init__`
always sets to `False`. -/
structure Template where
  template : CompiledTemplate
  backend : Jinja2
  _debug : Bool

/-- `Jinja2.from_string` (lines 209-210): wrap the compiled source in a
fresh `Template` — whose constructor leaves `_debug = False`. -/
def Jinja2.from_string (j : Jinja2) (template_code : String) : Template :=
  { template := j.env.from_string template_code
    backend := j
    _debug := false }

/-- The adapter's raised-error kinds at the template-lookup surface:
Django's `TemplateDoesNotExist` and `TemplateSyntaxError`. -/
inductive ErrKind where
  | templateDoesNotExist
  | templateSyntaxError
deriving DecidableEq, Repr

/-- A raised exception at the adapter boundary: its kind, its `args`,
and the traceback it was re-raised with (`six.reraise`'s third
argument), `none` when raised fresh. -/
structure RaisedError where
  kind : ErrKind
  args : List PyVal
  traceback : Option Traceback

/-- `Jinja2.get_template` (lines 217-228).  The second component
records whether `self.env.get_template` was invoked.  A non-matching
name raises `TemplateDoesNotExist` up front; `jinja2.TemplateNotFound`
and `jinja2.TemplateSyntaxError` are re-raised as Django's kinds
constructed with `exc.args` as their single argument, keeping the
original traceback via `six.reraise(..., sys.exc_info()[2])`. -/
def Jinja2.get_template (j : Jinja2) (template_name : String) :
    Except RaisedError Template × Bool :=
  if !(j.match_template template_name) then
    (.error { kind := .templateDoesNotExist
              args := [.str ("Template " ++ template_name ++
                             " does not exists")]
              traceback := none }, false)
  else
    match j.env.get_template template_name with
    | .found t =>
        (.ok { template := t, backend := j, _debug := j.tmpl_debug }, true)
    | .notFound args tb =>
        (.error { kind := .templateDoesNotExist
                  args := [.tuple args]
                  traceback := some tb }, true)
    | .templateSyntaxError args tb =>
        (.error { kind := .templateSyntaxError
                  args := [.tuple args]
                  traceback := some tb }, true)

/-- What a render call produced: the output string, the caller's
mapping as it stands after the call (`none` when the caller supplied no
mapping), the context handed to the compiled template, and whether the
`template_rendered` signal was emitted. -/
structure RenderResult where
  output : String
  callerCtx : Option Ctx
  passedCtx : Ctx
  signalEmitted : Bool

/-- `Template.render` (lines 46-86).  `call` interprets a resolved
context-processor object as its callable.  With a request, the code
writes `request` and the unevaluated lazy CSRF thunk *into the caller's
mapping*, resolves `self.backend.context_processors` (first access of
the `cached_property` — this is where an unresolvable processor path
raises), and merges each processor's mapping in order; without a
request the caller's mapping is left untouched.  The debug branch
(lines 65-83) wraps the context in a `CompatibilityContext` holding the
same entries and emits the `template_rendered` signal; it adds no
keys.  Finally the compiled template renders the assembled context. -/
def Template.render (R : Resolver) (call : PyObj → Request → Ctx)
    (t : Template) (ctx0 : Option Ctx) (request : Option Request) :
    Except ConfigError RenderResult :=
  let context := ctx0.getD []
  match request with
  | none =>
      .ok { output := t.template.render context
            callerCtx := ctx0
            passedCtx := context
            signalEmitted := t._debug }
  | some r =>
      let context := dictSet context "request" (.req r)
      let context := dictSet context "csrf_token" (.lazyToken r none)
      match Jinja2.context_processors R t.backend with
      | .error e => .error e
      | .ok procs =>
          let context :=
            procs.foldl (fun c p => dictUpdate c (call p r)) context
          .ok { output := t.template.render context
                callerCtx := ctx0.map (fun _ => context)
                passedCtx := context
                signalEmitted := t._debug }

/-! ## Concrete fixtures

Shared concrete instances used by witnesses and counterexamples. -/

def trivialCompiled : CompiledTemplate := { render := fun _ => "ok" }

def emptyEnv : Environment :=
  { filters := [], tests := [], globals := []
    from_string := fun _ => trivialCompiled
    get_template := fun _ => .found trivialCompiled }

def defaultFactoryOptions : FactoryOptions :=
  { undefined := .Undefined
    loader := .fileSystem []
    extensions := DEFAULT_EXTENSIONS
    auto_reload := false
    autoescape := true }

/-- A backend with default matcher config, no context processors, debug
off. -/
def backend0 : Jinja2 :=
  { app_dirname := "templates", tmpl_debug := false, env := emptyEnv
    envOptions := defaultFactoryOptions
    _context_processors := [], _match_regex := none
    _match_extension := ".jinja" }

/-- `backend0` with the template-debug option on. -/
def backendDbg : Jinja2 := { backend0 with tmpl_debug := true }

def tmpl0 : Template :=
  { template := trivialCompiled, backend := backend0, _debug := false }

/-- A resolver with no importable names. -/
def R0 : Resolver := fun _ => none

def call0 : PyObj → Request → Ctx := fun _ _ => []

/-- A request whose token provider yields no token. -/
def req0 : Request := { token := none }

/-- A traceback marking the compiler's parse failure location. -/
def tb0 : Traceback := { frames := ["jinja2/parser.py:parse"] }

/-- An environment whose lookup always reports a jinja2 syntax error
with a single-string `args`. -/
def envSyn : Environment :=
  { emptyEnv with
    get_template := fun _ =>
      .templateSyntaxError [.str "unexpected end of template"] tb0 }

def backendSyn : Jinja2 := { backend0 with env := envSyn }

/-- A resolver that imports every dotted path except
`"bad.processors.broken"`. -/
def R1 : Resolver :=
  fun path => if path = "bad.processors.broken" then none else some ⟨path⟩

def settings0 : Settings := { DEBUG := false, USE_I18N := false }

/-- Concrete collaborators for exercising `Jinja2.init`. -/
def collab1 : Collab :=
  { import_string := R1
    import_module := fun path => some ⟨path⟩
    applyFactory := fun _ _ => emptyEnv
    install_gettext_translations := fun env _ _ => env
    install_null_translations := fun env _ => env
    initialize_thirdparty := fun env => env
    initialize_bytecode_cache := fun env => env }

/-- A configuration whose only option is an unresolvable
context-processor reference. -/
def paramsBadProc : Params :=
  { template_dirs := []
    OPTIONS := { JinjaOptions.empty with
                 context_processors := some ["bad.processors.broken"] } }

/-- The adapter `Jinja2.init` builds from `paramsBadProc`: the broken
path is stored unresolved. -/
def jBadProc : Jinja2 :=
  { backend0 with _context_processors := ["bad.processors.broken"] }

/-- A configuration supplying `undefined` as a dotted-path string. -/
def paramsUndef : Params :=
  { template_dirs := []
    OPTIONS := { JinjaOptions.empty with
                 undefined := some (.str "myapp.jinja.MyUndefined") } }

/-- The adapter `Jinja2.init` builds from `paramsUndef`. -/
def jUndef : Jinja2 :=
  { backend0 with
    envOptions := { defaultFactoryOptions with
                    undefined := .custom ⟨"myapp.jinja.MyUndefined"⟩ } }

/-- A configuration with a string-valued filter reference and a
string-valued constant. -/
def paramsBuiltins : Params :=
  { template_dirs := []
    OPTIONS := { JinjaOptions.empty with
                 filters := some [("myfilter", .str "myapp.filters.f")]
                 constants := some [("version", .str "1.0")] } }

/-- The environment `_initialize_builtins` produces from
`paramsBuiltins`' tables over `emptyEnv`. -/
def env9 : Environment :=
  { emptyEnv with
    filters := [("myfilter", EnvVal.obj ⟨"myapp.filters.f"⟩)]
    globals := [("version", EnvVal.strLit "1.0")] }

/-- A configuration whose only option is a filter bound to an
unresolvable dotted-path reference. -/
def paramsBadFilter : Params :=
  { template_dirs := []
    OPTIONS := { JinjaOptions.empty with
                 filters := some [("badf", .str "bad.processors.broken")] } }

/-! ## Theorems -/

/-! ### Dict lemmas -/

theorem dictGet_dictSet_same {V : Type} (d : List (String × V))
    (k : String) (v : V) : dictGet (dictSet d k v) k = some v := by
  induction d with
  | nil => simp [dictSet, dictGet]
  | cons hd tl ih =>
      obtain ⟨m, w⟩ := hd
      by_cases h : m = k
      · simp [dictSet, dictGet, h]
      · simp [dictSet, dictGet, h, ih]

theorem dictGet_dictSet_ne {V : Type} (d : List (String × V))
    (m k : String) (v : V) (hne : m ≠ k) :
    dictGet (dictSet d m v) k = dictGet d k := by
  induction d with
  | nil => simp [dictSet, dictGet, hne]
  | cons hd tl ih =>
      obtain ⟨n, w⟩ := hd
      by_cases h : n = m
      · subst h
        simp [dictSet, dictGet, hne]
      · by_cases h2 : n = k
        · subst h2
          simp [dictSet, dictGet, h]
        · simp [dictSet, dictGet, h, h2, ih]

theorem dictGet_dictUpdate_of_none {V : Type} (d u : List (String × V))
    (k : String) (h : ∀ q ∈ u, q.1 ≠ k) :
    dictGet (dictUpdate d u) k = dictGet d k := by
  induction u generalizing d with
  | nil => rfl
  | cons q rest ih =>
      show dictGet (dictUpdate (dictSet d q.1 q.2) rest) k = dictGet d k
      rw [ih (dictSet d q.1 q.2)
        (fun p hp => h p (List.mem_cons_of_mem _ hp))]
      exact dictGet_dictSet_ne d q.1 k q.2 (h q (List.mem_cons_self _ _))

theorem dictGet_foldl_dictUpdate {V : Type}
    (call : PyObj → Request → List (String × V)) (r : Request)
    (procs : List PyObj) (k : String) (c0 : List (String × V))
    (h : ∀ p ∈ procs, ∀ q ∈ call p r, q.1 ≠ k) :
    dictGet (procs.foldl (fun c p => dictUpdate c (call p r)) c0) k =
      dictGet c0 k := by
  induction procs generalizing c0 with
  | nil => rfl
  | cons p rest ih =>
      rw [List.foldl_cons]
      rw [ih (dictUpdate c0 (call p r))
        (fun p2 hp q hq => h p2 (List.mem_cons_of_mem _ hp) q hq)]
      exact dictGet_dictUpdate_of_none c0 (call p r) k
        (fun q hq => h p (List.mem_cons_self _ _) q hq)

/-- Claim C1: `get_default` returns the single configured adapter when
exactly one adapter of this kind is registered, raises
`ImproperlyConfigured` when zero and when two or more are registered,
and a successful result is memoized — repeated calls return the
identical cached instance (even if the configured engines change
underneath) until a setting-changed notification for the `TEMPLATES`
setting clears the cache, after which the next call recomputes from the
current engines; notifications for other settings leave the cache
untouched. -/
theorem C1_get_default_registry (engines rest : List EngineInst)
    (e1 e2 : EngineInst) (s : RegistryState) (setting : String) :
    (jinjaEngines engines = [] →
      get_default ⟨engines, none⟩ =
        (.error (.improperlyConfigured "No Jinja2 backend is configured."),
         ⟨engines, none⟩)) ∧
    (jinjaEngines engines = e1 :: e2 :: rest →
      get_default ⟨engines, none⟩ =
        (.error (.improperlyConfigured
            ("Several Jinja2 backends are configured. " ++
             "You must select one explicitly.")),
         ⟨engines, none⟩)) ∧
    (jinjaEngines engines = [e1] →
      get_default ⟨engines, none⟩ = (.ok e1, ⟨engines, some e1⟩)) ∧
    (get_default ⟨engines, some e1⟩ = (.ok e1, ⟨engines, some e1⟩)) ∧
    ((get_default (_setting_changed "TEMPLATES" s)).1 =
      getDefaultCore s.engines) ∧
    (setting ≠ "TEMPLATES" → _setting_changed setting s = s) := by
  refine ⟨?_, ?_, ?_, ?_, ?_, ?_⟩
  · intro h; simp [get_default, getDefaultCore, h]
  · intro h; simp [get_default, getDefaultCore, h]
  · intro h; simp [get_default, getDefaultCore, h]
  · simp [get_default]
  · simp only [_setting_changed, if_pos rfl]
    cases hc : getDefaultCore s.engines <;> simp [get_default, hc]
  · intro h; simp [_setting_changed, h]

/-- Witness for C1: concrete registries with one, zero and two Jinja2
engines, plus a non-`TEMPLATES` setting change. -/
theorem C1_get_default_registry_witness :
    get_default ⟨[.jinja 0, .other 7], none⟩ =
      (.ok (.jinja 0), ⟨[.jinja 0, .other 7], some (.jinja 0)⟩) ∧
    get_default ⟨[.other 7], none⟩ =
      (.error (.improperlyConfigured "No Jinja2 backend is configured."),
       ⟨[.other 7], none⟩) ∧
    get_default ⟨[.jinja 0, .jinja 1], none⟩ =
      (.error (.improperlyConfigured
          ("Several Jinja2 backends are configured. " ++
           "You must select one explicitly.")),
       ⟨[.jinja 0, .jinja 1], none⟩) ∧
    _setting_changed "DEBUG" ⟨[], some (.jinja 0)⟩ = ⟨[], some (.jinja 0)⟩ := by
  refine ⟨?_, ?_, ?_, ?_⟩
  · exact (C1_get_default_registry [.jinja 0, .other 7] [] (.jinja 0)
      (.jinja 0) ⟨[], none⟩ "").2.2.1 (by decide)
  · exact (C1_get_default_registry [.other 7] [] (.jinja 0)
      (.jinja 0) ⟨[], none⟩ "").1 (by decide)
  · exact (C1_get_default_registry [.jinja 0, .jinja 1] [] (.jinja 0)
      (.jinja 1) ⟨[], none⟩ "").2.1 (by decide)
  · exact (C1_get_default_registry [] [] (.jinja 0) (.jinja 0)
      ⟨[], some (.jinja 0)⟩ "DEBUG").2.2.2.2.2 (by decide)

/-- Claim C8: a render call without a request hands the compiled
template exactly the caller-supplied mapping — no `request` key, no
`csrf_token` key, no context-processor contributions — and the caller's
mapping is left as it was; with no caller mapping the empty mapping is
passed. -/
theorem C8_render_without_request (R : Resolver)
    (call : PyObj → Request → Ctx) (t : Template) (ctx : Ctx) :
    Template.render R call t (some ctx) none =
      .ok { output := t.template.render ctx
            callerCtx := some ctx
            passedCtx := ctx
            signalEmitted := t._debug } ∧
    Template.render R call t none none =
      .ok { output := t.template.render []
            callerCtx := none
            passedCtx := []
            signalEmitted := t._debug } :=
  ⟨rfl, rfl⟩

/-- Claim C2 is false on the code: rendering with caller mapping
`[("a", 1)]` and a request leaves the caller's mapping holding
`request` and `csrf_token` entries it did not hold before the call —
`Template.render` writes into the caller's mapping instead of copying
it. -/
theorem C2_render_mutates_caller_counterexample :
    Template.render R0 call0 tmpl0 (some [("a", .int 1)]) (some req0) =
      .ok { output := "ok"
            callerCtx := some [("a", .int 1), ("request", .req req0),
                               ("csrf_token", .lazyToken req0 none)]
            passedCtx := [("a", .int 1), ("request", .req req0),
                          ("csrf_token", .lazyToken req0 none)]
            signalEmitted := false } ∧
    [("a", CtxVal.int 1), ("request", CtxVal.req req0),
     ("csrf_token", CtxVal.lazyToken req0 none)] ≠ [("a", CtxVal.int 1)] :=
  ⟨rfl, by decide⟩

/-- Claim C2 amended: `Template.render` does not copy the caller's
mapping.  Without a request the caller's mapping is left untouched;
with a request, the `request` entry, the unevaluated lazy `csrf_token`
thunk and each context processor's entries are written into the
caller's mapping in place. -/
theorem C2_render_mutation_amended (R : Resolver)
    (call : PyObj → Request → Ctx) (t : Template) (ctx : Ctx)
    (r : Request) (procs : List PyObj)
    (h : Jinja2.context_processors R t.backend = .ok procs) :
    (Template.render R call t (some ctx) none =
      .ok { output := t.template.render ctx
            callerCtx := some ctx
            passedCtx := ctx
            signalEmitted := t._debug }) ∧
    (Template.render R call t (some ctx) (some r) =
      let c := procs.foldl (fun c p => dictUpdate c (call p r))
        (dictSet (dictSet ctx "request" (.req r)) "csrf_token"
          (.lazyToken r none))
      .ok { output := t.template.render c
            callerCtx := some c
            passedCtx := c
            signalEmitted := t._debug }) := by
  constructor
  · rfl
  · simp [Template.render, h]

/-- Witness for the amended C2 at a concrete backend, mapping and
request. -/
theorem C2_render_mutation_amended_witness :
    Jinja2.context_processors R0 tmpl0.backend = .ok [] ∧
    Template.render R0 call0 tmpl0 (some [("b", .str "v")]) none =
      .ok { output := "ok"
            callerCtx := some [("b", .str "v")]
            passedCtx := [("b", .str "v")]
            signalEmitted := false } :=
  ⟨rfl, (C2_render_mutation_amended R0 call0 tmpl0 [("b", .str "v")]
      req0 [] rfl).1⟩

/-- Claim C10: `from_string` always yields a handle whose `_debug` flag
is false regardless of the backend's configured debug option (the
`Template` constructor sets it and `from_string` never overrides it),
so rendering a source-built handle never emits the `template_rendered`
signal; a handle produced by `get_template` carries the backend's
`tmpl_debug`. -/
theorem C10_from_string_debug (j : Jinja2) (code : String) (R : Resolver)
    (call : PyObj → Request → Ctx) (ctx0 : Option Ctx)
    (request : Option Request) (name : String) (t : Template)
    (res : RenderResult)
    (hget : (Jinja2.get_template j name).1 = .ok t)
    (hrender : Template.render R call (j.from_string code) ctx0 request
      = .ok res) :
    (j.from_string code)._debug = false ∧
    res.signalEmitted = false ∧
    t._debug = j.tmpl_debug := by
  refine ⟨rfl, ?_, ?_⟩
  · unfold Template.render at hrender
    cases request with
    | none =>
        simp only [Except.ok.injEq] at hrender
        subst hrender
        rfl
    | some r =>
        cases hp : Jinja2.context_processors R (j.from_string code).backend with
        | error e => rw [hp] at hrender; simp at hrender
        | ok procs =>
            rw [hp] at hrender
            simp only [Except.ok.injEq] at hrender
            subst hrender
            rfl
  · unfold Jinja2.get_template at hget
    cases hm : j.match_template name with
    | false => rw [hm] at hget; simp at hget
    | true =>
        rw [hm] at hget
        cases hl : j.env.get_template name with
        | found tt =>
            rw [hl] at hget
            simp only [Bool.not_true, Bool.false_eq_true, if_false,
              Except.ok.injEq] at hget
            subst hget
            rfl
        | notFound args tb =>
            rw [hl] at hget; simp at hget
        | templateSyntaxError args tb =>
            rw [hl] at hget; simp at hget

/-- Witness for C10: a debug-enabled backend; its `from_string` handle
has `_debug = false`, its render emits no signal, and its
`get_template` handle has `_debug = true`. -/
theorem C10_from_string_debug_witness :
    (backendDbg.from_string "x")._debug = false ∧
    ({ output := "ok", callerCtx := none, passedCtx := []
       signalEmitted := false } : RenderResult).signalEmitted = false ∧
    ({ template := trivialCompiled, backend := backendDbg
       _debug := true } : Template)._debug = backendDbg.tmpl_debug :=
  C10_from_string_debug backendDbg "x" R0 call0 none none "a.jinja"
    { template := trivialCompiled, backend := backendDbg, _debug := true }
    { output := "ok", callerCtx := none, passedCtx := []
      signalEmitted := false }
    rfl rfl

/-- Claim C6: for every template name failing the adapter's match rule,
`get_template` raises `TemplateDoesNotExist` synchronously with a
message carrying the name, and the underlying compiler's
`get_template` is never invoked (the invocation flag is `false`). -/
theorem C6_nonmatching_name (j : Jinja2) (name : String)
    (h : j.match_template name = false) :
    Jinja2.get_template j name =
      (.error { kind := .templateDoesNotExist
                args := [.str ("Template " ++ name ++ " does not exists")]
                traceback := none }, false) ∧
    excMessage [.str ("Template " ++ name ++ " does not exists")] =
      "Template " ++ name ++ " does not exists" := by
  constructor
  · simp [Jinja2.get_template, h]
  · rfl

/-- Witness for C6: `"a.txt"` fails the default `.jinja` suffix rule;
lookup raises without consulting the compiler. -/
theorem C6_nonmatching_name_witness :
    backend0.match_template "a.txt" = false ∧
    Jinja2.get_template backend0 "a.txt" =
      (.error { kind := .templateDoesNotExist
                args := [.str ("Template " ++ "a.txt" ++ " does not exists")]
                traceback := none }, false) :=
  ⟨rfl, (C6_nonmatching_name backend0 "a.txt" rfl).1⟩

/-- Claim C5 is false on the code at this input: the compiler reports a
syntax error whose raw message is `"unexpected end of template"`, but
the adapter's re-raised `TemplateSyntaxError` is constructed with the
compiler exception's `args` tuple as its single argument, so its
message text is `"('unexpected end of template',)"` — not the raw
message. -/
theorem C5_syntax_error_message_counterexample :
    (Jinja2.get_template backendSyn "a.jinja").1 =
      .error { kind := .templateSyntaxError
               args := [.tuple [.str "unexpected end of template"]]
               traceback := some tb0 } ∧
    excMessage [.tuple [.str "unexpected end of template"]] =
      "('unexpected end of template',)" ∧
    excMessage [.str "unexpected end of template"] =
      "unexpected end of template" ∧
    ("('unexpected end of template',)" : String) ≠
      "unexpected end of template" :=
  ⟨rfl, rfl, rfl, by decide⟩

/-- Claim C5 amended: a compiler syntax error during lookup is
re-raised under the adapter's own `TemplateSyntaxError` kind with the
original traceback preserved, but the new exception carries the
compiler exception's `args` tuple as its single argument, so its
message is the string form of that tuple rather than the compiler's raw
message text. -/
theorem C5_syntax_error_reraise_amended (j : Jinja2) (name : String)
    (args : List PyVal) (tb : Traceback)
    (hm : j.match_template name = true)
    (hl : j.env.get_template name = .templateSyntaxError args tb) :
    Jinja2.get_template j name =
      (.error { kind := .templateSyntaxError
                args := [.tuple args]
                traceback := some tb }, true) ∧
    excMessage [.tuple args] = pyRepr (.tuple args) := by
  constructor
  · simp [Jinja2.get_template, hm, hl]
  · rfl

/-- Witness for the amended C5 at the concrete syntax-erroring
backend. -/
theorem C5_syntax_error_reraise_amended_witness :
    Jinja2.get_template backendSyn "a.jinja" =
      (.error { kind := .templateSyntaxError
                args := [.tuple [.str "unexpected end of template"]]
                traceback := some tb0 }, true) ∧
    excMessage [.tuple [.str "unexpected end of template"]] =
      pyRepr (.tuple [.str "unexpected end of template"]) :=
  C5_syntax_error_reraise_amended backendSyn "a.jinja"
    [.str "unexpected end of template"] tb0 rfl rfl

/-- When construction succeeds, the `undefined` option the environment
factory received is whatever lines 138-148 resolved. -/
theorem init_ok_undefined (C : Collab) (S : Settings) (p : Params)
    (j : Jinja2) (u : UndefinedCls)
    (hres : resolveUndefined C.import_string S.DEBUG p.OPTIONS.undefined
      = .ok u)
    (hinit : Jinja2.init C S p = .ok j) :
    j.envOptions.undefined = u := by
  simp only [Jinja2.init, hres] at hinit
  split at hinit
  · simp at hinit
  · split at hinit
    · simp at hinit
    · split at hinit
      · simp at hinit
      · simp only [Except.ok.injEq] at hinit
        subst hinit
        rfl

/-- Claim C4: with no caller-supplied `undefined` option, the policy
the environment factory receives is the verbose `DebugUndefined` when
the host debug flag is set and `Undefined` (the policy the spec's
taxonomy labels strict-erroring) otherwise; a caller-supplied string is
resolved as a dotted reference and the resolved class is used. -/
theorem C4_undefined_policy (C : Collab) (S : Settings) (p q : Params)
    (j k : Jinja2) (s : String) (o : PyObj) :
    (p.OPTIONS.undefined = none → Jinja2.init C S p = .ok j →
      j.envOptions.undefined =
        (if S.DEBUG then UndefinedCls.DebugUndefined
         else UndefinedCls.Undefined)) ∧
    (q.OPTIONS.undefined = some (.str s) → C.import_string s = some o →
      Jinja2.init C S q = .ok k →
      k.envOptions.undefined = .custom o) := by
  constructor
  · intro hu hinit
    exact init_ok_undefined C S p j _ (by rw [hu]; rfl) hinit
  · intro hq hR hinit
    exact init_ok_undefined C S q k (.custom o)
      (by rw [hq]; simp [resolveUndefined, hR]) hinit

/-- Witness for C4: a debug-off host with no `undefined` option yields
`Undefined`; a dotted-path string yields the resolved class. -/
theorem C4_undefined_policy_witness :
    paramsBadProc.OPTIONS.undefined = none ∧
    Jinja2.init collab1 settings0 paramsBadProc = .ok jBadProc ∧
    jBadProc.envOptions.undefined =
      (if settings0.DEBUG then UndefinedCls.DebugUndefined
       else UndefinedCls.Undefined) ∧
    paramsUndef.OPTIONS.undefined =
      some (.str "myapp.jinja.MyUndefined") ∧
    collab1.import_string "myapp.jinja.MyUndefined" =
      some ⟨"myapp.jinja.MyUndefined"⟩ ∧
    Jinja2.init collab1 settings0 paramsUndef = .ok jUndef ∧
    jUndef.envOptions.undefined = .custom ⟨"myapp.jinja.MyUndefined"⟩ := by
  have h := C4_undefined_policy collab1 settings0 paramsBadProc paramsUndef
    jBadProc jUndef "myapp.jinja.MyUndefined" ⟨"myapp.jinja.MyUndefined"⟩
  exact ⟨rfl, rfl, h.1 rfl rfl, rfl, rfl, rfl, h.2 rfl rfl rfl⟩

/-- Claim C7: with a request, the assembled context stores the
`csrf_token` entry as the unevaluated `SimpleLazyObject` thunk — the
token provider is not invoked while the context is assembled, as the
invocation counter is threaded only through `readLazy`/`get_token` and
assembly touches neither.  The first read of the key invokes the
provider exactly once, yielding the literal `"NOTPROVIDED"` when the
provider yields no token and the `smart_text`-encoded token otherwise;
later reads of the memoized value invoke it no further.  (The
hypothesis `hnc` keeps the configured context processors from
overwriting the `csrf_token` entry, the documented later-overlay
behavior that is outside this claim.) -/
theorem C7_lazy_csrf_token (R : Resolver) (call : PyObj → Request → Ctx)
    (t : Template) (ctx : Ctx) (r : Request) (procs : List PyObj)
    (res : RenderResult) (w : World)
    (hp : Jinja2.context_processors R t.backend = .ok procs)
    (hnc : ∀ p ∈ procs, ∀ q ∈ call p r, q.1 ≠ "csrf_token")
    (hr : Template.render R call t (some ctx) (some r) = .ok res) :
    dictGet res.passedCtx "csrf_token" = some (.lazyToken r none) ∧
    (r.token = none →
      readLazy (.lazyToken r none) w =
        (.str "NOTPROVIDED", .lazyToken r (some "NOTPROVIDED"),
         { tokenCalls := w.tokenCalls + 1 })) ∧
    (∀ tok, r.token = some tok →
      readLazy (.lazyToken r none) w =
        (.str (smart_text tok), .lazyToken r (some (smart_text tok)),
         { tokenCalls := w.tokenCalls + 1 })) ∧
    (∀ s, readLazy (.lazyToken r (some s)) w =
      (.str s, .lazyToken r (some s), w)) := by
  refine ⟨?_, ?_, ?_, ?_⟩
  · simp only [Template.render, hp] at hr
    simp only [Except.ok.injEq] at hr
    subst hr
    rw [dictGet_foldl_dictUpdate call r procs "csrf_token" _ hnc]
    exact dictGet_dictSet_same _ _ _
  · intro h
    simp [readLazy, get_token, h]
  · intro tok h
    simp [readLazy, get_token, h]
  · intro s
    rfl

/-- Witness for C7 at a concrete no-token request: the stored entry is
the unevaluated thunk; the first read yields `"NOTPROVIDED"` with one
provider call; a memoized read makes none. -/
theorem C7_lazy_csrf_token_witness :
    dictGet [("request", CtxVal.req req0),
             ("csrf_token", CtxVal.lazyToken req0 none)] "csrf_token" =
      some (.lazyToken req0 none) ∧
    readLazy (.lazyToken req0 none) ⟨0⟩ =
      (.str "NOTPROVIDED", .lazyToken req0 (some "NOTPROVIDED"), ⟨1⟩) ∧
    readLazy (.lazyToken req0 (some "NOTPROVIDED")) ⟨1⟩ =
      (.str "NOTPROVIDED", .lazyToken req0 (some "NOTPROVIDED"), ⟨1⟩) := by
  have h := C7_lazy_csrf_token R0 call0 tmpl0 [] req0 []
    { output := "ok"
      callerCtx := some [("request", CtxVal.req req0),
                         ("csrf_token", CtxVal.lazyToken req0 none)]
      passedCtx := [("request", CtxVal.req req0),
                    ("csrf_token", CtxVal.lazyToken req0 none)]
      signalEmitted := false } ⟨0⟩ rfl (by simp) rfl
  have h1 := C7_lazy_csrf_token R0 call0 tmpl0 [] req0 []
    { output := "ok"
      callerCtx := some [("request", CtxVal.req req0),
                         ("csrf_token", CtxVal.lazyToken req0 none)]
      passedCtx := [("request", CtxVal.req req0),
                    ("csrf_token", CtxVal.lazyToken req0 none)]
      signalEmitted := false } ⟨1⟩ rfl (by simp) rfl
  exact ⟨h.1, h.2.1 rfl, h1.2.2.2 "NOTPROVIDED"⟩

/-! ### Builtin-installation lemmas -/

theorem insert_ok_dictGet_ne (R : Resolver) (d d1 : List (String × EnvVal))
    (m : String) (w : BuiltinVal) (n : String)
    (h : insert R d m w = .ok d1) (hne : m ≠ n) :
    dictGet d1 n = dictGet d n := by
  cases w with
  | str s =>
      cases hR : R s with
      | none => rw [insert, hR] at h; simp at h
      | some o =>
          rw [insert, hR] at h
          simp only [Except.ok.injEq] at h
          subst h
          exact dictGet_dictSet_ne d m n _ hne
  | int i =>
      simp only [insert, Except.ok.injEq] at h
      subst h
      exact dictGet_dictSet_ne d m n _ hne
  | obj o =>
      simp only [insert, Except.ok.injEq] at h
      subst h
      exact dictGet_dictSet_ne d m n _ hne

theorem insertAll_ok_dictGet_not_mem (R : Resolver)
    (l : List (String × BuiltinVal)) (n : String) :
    ∀ d d2, insertAll R d l = .ok d2 → (∀ q ∈ l, q.1 ≠ n) →
      dictGet d2 n = dictGet d n := by
  induction l with
  | nil =>
      intro d d2 h _
      simp only [insertAll, Except.ok.injEq] at h
      subst h
      rfl
  | cons q rest ih =>
      intro d d2 h hn
      obtain ⟨m, w⟩ := q
      simp only [insertAll] at h
      cases hi : insert R d m w with
      | error e => rw [hi] at h; simp at h
      | ok d1 =>
          rw [hi] at h
          rw [ih d1 d2 h (fun p hp => hn p (List.mem_cons_of_mem _ hp))]
          exact insert_ok_dictGet_ne R d d1 m w n hi
            (hn (m, w) (List.mem_cons_self _ _))

theorem insertAll_ok_dictGet_mem_str (R : Resolver)
    (l : List (String × BuiltinVal)) (n s : String) :
    ∀ d d2, insertAll R d l = .ok d2 → (l.map Prod.fst).Nodup →
      (n, BuiltinVal.str s) ∈ l →
      ∃ o, R s = some o ∧ dictGet d2 n = some (.obj o) := by
  induction l with
  | nil => intro d d2 _ _ hmem; cases hmem
  | cons q rest ih =>
      intro d d2 h hnd hmem
      obtain ⟨m, w⟩ := q
      simp only [List.map_cons] at hnd
      simp only [insertAll] at h
      rcases List.mem_cons.mp hmem with heq | hmem2
      · injection heq with h1 h2
        subst h1
        subst h2
        cases hR : R s with
        | none => rw [insert, hR] at h; simp at h
        | some o =>
            rw [insert, hR] at h
            refine ⟨o, rfl, ?_⟩
            have hk : ∀ q ∈ rest, q.1 ≠ n := by
              intro q hq hqe
              exact (List.nodup_cons.mp hnd).1
                (hqe ▸ List.mem_map_of_mem Prod.fst hq)
            rw [insertAll_ok_dictGet_not_mem R rest n _ d2 h hk]
            exact dictGet_dictSet_same d n (.obj o)
      · cases hi : insert R d m w with
        | error e => rw [hi] at h; simp at h
        | ok d1 =>
            rw [hi] at h
            exact ih d1 d2 h (List.nodup_cons.mp hnd).2 hmem2

theorem insertAll_error_of_mem (R : Resolver) (n s : String)
    (hR : R s = none) :
    ∀ l, (n, BuiltinVal.str s) ∈ l →
      ∀ d, ∃ e, insertAll R d l = .error e := by
  intro l
  induction l with
  | nil => intro h; cases h
  | cons q rest ih =>
      intro hmem d
      obtain ⟨m, w⟩ := q
      rcases List.mem_cons.mp hmem with heq | hmem2
      · injection heq with h1 h2
        subst h1
        subst h2
        exact ⟨.importError s, by simp [insertAll, insert, hR]⟩
      · cases hi : insert R d m w with
        | error e => exact ⟨e, by simp [insertAll, hi]⟩
        | ok d1 =>
            obtain ⟨e, he⟩ := ih hmem2 d1
            exact ⟨e, by simp [insertAll, hi, he]⟩

theorem setAll_dictGet_not_mem (cs : List (String × BuiltinVal))
    (n : String) :
    ∀ d, (∀ q ∈ cs, q.1 ≠ n) → dictGet (setAll d cs) n = dictGet d n := by
  induction cs with
  | nil => intro d _; rfl
  | cons q rest ih =>
      intro d hn
      obtain ⟨m, w⟩ := q
      show dictGet (setAll (dictSet d m (literalVal w)) rest) n = dictGet d n
      rw [ih _ (fun p hp => hn p (List.mem_cons_of_mem _ hp))]
      exact dictGet_dictSet_ne d m n _ (hn (m, w) (List.mem_cons_self _ _))

theorem setAll_dictGet_mem (cs : List (String × BuiltinVal))
    (n : String) (v : BuiltinVal) :
    ∀ d, (cs.map Prod.fst).Nodup → (n, v) ∈ cs →
      dictGet (setAll d cs) n = some (literalVal v) := by
  induction cs with
  | nil => intro d _ hmem; cases hmem
  | cons q rest ih =>
      intro d hnd hmem
      obtain ⟨m, w⟩ := q
      simp only [List.map_cons] at hnd
      rcases List.mem_cons.mp hmem with heq | hmem2
      · injection heq with h1 h2
        subst h1
        subst h2
        show dictGet (setAll (dictSet d n (literalVal v)) rest) n = _
        have hk : ∀ q ∈ rest, q.1 ≠ n := by
          intro q hq hqe
          exact (List.nodup_cons.mp hnd).1
            (hqe ▸ List.mem_map_of_mem Prod.fst hq)
        rw [setAll_dictGet_not_mem rest n _ hk]
        exact dictGet_dictSet_same d n (literalVal v)
      · exact ih (dictSet d m (literalVal w)) (List.nodup_cons.mp hnd).2 hmem2

/-- Claim C9: after `_initialize_builtins`, every constants entry sits
in the environment's globals namespace as its literal value — a string
constant is installed as that string (`strLit`), not resolved — while
every string-valued entry of filters, tests and globals is resolved as
a dotted reference and the resolved object is installed.  (Key-sets of
each table are `Nodup`, as Python dict keys are; a globals entry is
additionally required not to be shadowed by a same-named constant,
since constants are written last.) -/
theorem C9_builtin_install (R : Resolver) (env env2 : Environment)
    (fl ts gl cs : List (String × BuiltinVal)) (n s : String)
    (v : BuiltinVal)
    (h : _initialize_builtins R env fl ts gl cs = .ok env2) :
    ((cs.map Prod.fst).Nodup → (n, v) ∈ cs →
      dictGet env2.globals n = some (literalVal v)) ∧
    ((fl.map Prod.fst).Nodup → (n, BuiltinVal.str s) ∈ fl →
      ∃ o, R s = some o ∧ dictGet env2.filters n = some (.obj o)) ∧
    ((ts.map Prod.fst).Nodup → (n, BuiltinVal.str s) ∈ ts →
      ∃ o, R s = some o ∧ dictGet env2.tests n = some (.obj o)) ∧
    ((gl.map Prod.fst).Nodup → (n, BuiltinVal.str s) ∈ gl →
      (∀ q ∈ cs, q.1 ≠ n) →
      ∃ o, R s = some o ∧ dictGet env2.globals n = some (.obj o)) := by
  simp only [_initialize_builtins] at h
  cases h1 : insertAll R env.filters fl with
  | error e => rw [h1] at h; simp at h
  | ok f =>
      rw [h1] at h
      cases h2 : insertAll R env.tests ts with
      | error e => rw [h2] at h; simp at h
      | ok t =>
          rw [h2] at h
          cases h3 : insertAll R env.globals gl with
          | error e => rw [h3] at h; simp at h
          | ok g =>
              rw [h3] at h
              simp only [Except.ok.injEq] at h
              subst h
              refine ⟨?_, ?_, ?_, ?_⟩
              · intro hnd hmem
                exact setAll_dictGet_mem cs n v g hnd hmem
              · intro hnd hmem
                exact insertAll_ok_dictGet_mem_str R fl n s
                  env.filters f h1 hnd hmem
              · intro hnd hmem
                exact insertAll_ok_dictGet_mem_str R ts n s
                  env.tests t h2 hnd hmem
              · intro hnd hmem hcs
                obtain ⟨o, hR, hget⟩ := insertAll_ok_dictGet_mem_str R gl n s
                  env.globals g h3 hnd hmem
                refine ⟨o, hR, ?_⟩
                show dictGet (setAll g cs) n = _
                rw [setAll_dictGet_not_mem cs n g hcs]
                exact hget

/-- Witness for C9: a string constant `("version", "1.0")` lands in
globals as the literal `"1.0"`, while the string filter reference
`"myapp.filters.f"` is resolved and installed as the imported object. -/
theorem C9_builtin_install_witness :
    _initialize_builtins R1 emptyEnv
      [("myfilter", .str "myapp.filters.f")] [] []
      [("version", .str "1.0")] = .ok env9 ∧
    dictGet env9.globals "version" = some (.strLit "1.0") ∧
    (∃ o, R1 "myapp.filters.f" = some o ∧
      dictGet env9.filters "myfilter" = some (.obj o)) := by
  have hc := C9_builtin_install R1 emptyEnv env9
    [("myfilter", .str "myapp.filters.f")] [] []
    [("version", .str "1.0")] "version" "unused" (.str "1.0") rfl
  have hf := C9_builtin_install R1 emptyEnv env9
    [("myfilter", .str "myapp.filters.f")] [] []
    [("version", .str "1.0")] "myfilter" "myapp.filters.f"
    (.str "1.0") rfl
  exact ⟨rfl, hc.1 (by decide) (by decide), hf.2.1 (by decide) (by decide)⟩

/-! ### Resolution-timing lemmas -/

theorem resolveAll_error_of_mem (R : Resolver) (path : String)
    (hR : R path = none) :
    ∀ l, path ∈ l → ∃ e, resolveAll R l = .error e := by
  intro l
  induction l with
  | nil => intro h; cases h
  | cons q rest ih =>
      intro hmem
      rcases List.mem_cons.mp hmem with heq | hmem2
      · subst heq
        exact ⟨.importError path, by simp [resolveAll, hR]⟩
      · cases hq : R q with
        | none => exact ⟨.importError q, by simp [resolveAll, hq]⟩
        | some o =>
            obtain ⟨e, he⟩ := ih hmem2
            exact ⟨e, by simp [resolveAll, hq, he]⟩

theorem _initialize_builtins_error (R : Resolver) (env : Environment)
    (fl ts gl cs : List (String × BuiltinVal)) (n s : String)
    (hR : R s = none)
    (hmem : (n, BuiltinVal.str s) ∈ fl ∨ (n, BuiltinVal.str s) ∈ ts ∨
      (n, BuiltinVal.str s) ∈ gl) :
    ∃ e, _initialize_builtins R env fl ts gl cs = .error e := by
  rcases hmem with hf | ht | hg
  · obtain ⟨e, he⟩ := insertAll_error_of_mem R n s hR fl hf env.filters
    exact ⟨e, by simp [_initialize_builtins, he]⟩
  · cases h1 : insertAll R env.filters fl with
    | error e => exact ⟨e, by simp [_initialize_builtins, h1]⟩
    | ok f =>
        obtain ⟨e, he⟩ := insertAll_error_of_mem R n s hR ts ht env.tests
        exact ⟨e, by simp [_initialize_builtins, h1, he]⟩
  · cases h1 : insertAll R env.filters fl with
    | error e => exact ⟨e, by simp [_initialize_builtins, h1]⟩
    | ok f =>
        cases h2 : insertAll R env.tests ts with
        | error e => exact ⟨e, by simp [_initialize_builtins, h1, h2]⟩
        | ok t =>
            obtain ⟨e, he⟩ :=
              insertAll_error_of_mem R n s hR gl hg env.globals
            exact ⟨e, by simp [_initialize_builtins, h1, h2, he]⟩

/-- If `_initialize_builtins` fails on whatever environment reaches it,
construction fails. -/
theorem init_error_of_builtins (C : Collab) (S : Settings) (p : Params)
    (hb : ∀ env : Environment,
      ∃ e, _initialize_builtins C.import_string env
        (p.OPTIONS.filters.getD []) (p.OPTIONS.tests.getD [])
        (p.OPTIONS.globals.getD []) (p.OPTIONS.constants.getD [])
        = .error e) :
    ∃ e, Jinja2.init C S p = .error e := by
  cases hu : resolveUndefined C.import_string S.DEBUG
      p.OPTIONS.undefined with
  | error e => exact ⟨e, by simp [Jinja2.init, hu]⟩
  | ok u =>
      cases hc : importString C.import_string
          (p.OPTIONS.environment.getD "jinja2.Environment") with
      | error e => exact ⟨e, by simp [Jinja2.init, hu, hc]⟩
      | ok cls =>
          cases hms : installTranslations C S
              (p.OPTIONS.translation_engine.getD "django.utils.translation")
              (p.OPTIONS.newstyle_gettext.getD true)
              (C.applyFactory cls
                { undefined := u
                  loader := p.OPTIONS.loader.getD
                    (.fileSystem p.template_dirs)
                  extensions := p.OPTIONS.extensions.getD DEFAULT_EXTENSIONS
                  auto_reload := p.OPTIONS.auto_reload.getD S.DEBUG
                  autoescape := p.OPTIONS.autoescape.getD true }) with
          | error e => exact ⟨e, by simp [Jinja2.init, hu, hc, hms]⟩
          | ok envT =>
              obtain ⟨e, he⟩ := hb envT
              exact ⟨e, by simp [Jinja2.init, hu, hc, hms, he]⟩

/-- When construction succeeds, the context-processor paths are stored
exactly as configured — unresolved. -/
theorem init_ok_context_processors (C : Collab) (S : Settings)
    (p : Params) (j : Jinja2) (h : Jinja2.init C S p = .ok j) :
    j._context_processors = p.OPTIONS.context_processors.getD [] := by
  simp only [Jinja2.init] at h
  split at h
  · simp at h
  · split at h
    · simp at h
    · split at h
      · simp at h
      · split at h
        · simp at h
        · simp only [Except.ok.injEq] at h
          subst h
          rfl

/-- Claim C3 amended: every unresolvable dotted-path string reference
among the `undefined` option, the environment class, the translation
engine (under `USE_I18N`) and the filters/tests/globals values makes
adapter construction itself fail with a configuration error — but an
unresolvable context-processor reference does *not* fail construction:
the paths are stored unresolved, and resolution first fails on the
first access of `context_processors`, i.e. at the first render with a
request. -/
theorem C3_resolution_timing_amended (C : Collab) (S : Settings)
    (p : Params) (n s path : String) (R : Resolver)
    (call : PyObj → Request → Ctx) (t : Template) (ctx : Option Ctx)
    (r : Request) (e0 : ConfigError) :
    (p.OPTIONS.undefined = some (.str s) → C.import_string s = none →
      ∃ e, Jinja2.init C S p = .error e) ∧
    (p.OPTIONS.environment = some s → C.import_string s = none →
      ∃ e, Jinja2.init C S p = .error e) ∧
    (S.USE_I18N = true → p.OPTIONS.translation_engine = some s →
      C.import_module s = none → ∃ e, Jinja2.init C S p = .error e) ∧
    (((n, BuiltinVal.str s) ∈ p.OPTIONS.filters.getD [] ∨
      (n, BuiltinVal.str s) ∈ p.OPTIONS.tests.getD [] ∨
      (n, BuiltinVal.str s) ∈ p.OPTIONS.globals.getD []) →
      C.import_string s = none → ∃ e, Jinja2.init C S p = .error e) ∧
    (∀ j, Jinja2.init C S p = .ok j →
      j._context_processors = p.OPTIONS.context_processors.getD []) ∧
    (∀ j, path ∈ j._context_processors → R path = none →
      ∃ e, Jinja2.context_processors R j = .error e) ∧
    (Jinja2.context_processors R t.backend = .error e0 →
      Template.render R call t ctx (some r) = .error e0) := by
  refine ⟨?_, ?_, ?_, ?_, ?_, ?_, ?_⟩
  · intro hu hR
    exact ⟨.importError s, by simp [Jinja2.init, resolveUndefined, hu, hR]⟩
  · intro henv hR
    cases hu : resolveUndefined C.import_string S.DEBUG
        p.OPTIONS.undefined with
    | error e => exact ⟨e, by simp [Jinja2.init, hu]⟩
    | ok u =>
        exact ⟨.importError s,
          by simp [Jinja2.init, hu, importString, henv, hR]⟩
  · intro hi18n htr hR
    cases hu : resolveUndefined C.import_string S.DEBUG
        p.OPTIONS.undefined with
    | error e => exact ⟨e, by simp [Jinja2.init, hu]⟩
    | ok u =>
        cases hc : importString C.import_string
            (p.OPTIONS.environment.getD "jinja2.Environment") with
        | error e => exact ⟨e, by simp [Jinja2.init, hu, hc]⟩
        | ok cls =>
            exact ⟨.importError s,
              by simp [Jinja2.init, hu, hc, installTranslations,
                hi18n, htr, hR]⟩
  · intro hmem hR
    exact init_error_of_builtins C S p
      (fun env => _initialize_builtins_error C.import_string env
        (p.OPTIONS.filters.getD []) (p.OPTIONS.tests.getD [])
        (p.OPTIONS.globals.getD []) (p.OPTIONS.constants.getD [])
        n s hR hmem)
  · intro j hj
    exact init_ok_context_processors C S p j hj
  · intro j hmem hR
    exact resolveAll_error_of_mem R path hR j._context_processors hmem
  · intro hcp
    simp [Template.render, hcp]

/-- Claim C3 is false on the code at this input: a configuration whose
context-processor list holds an unresolvable dotted path constructs
successfully — the failure is deferred to the first access of
`context_processors`, surfacing at the first render with a request
rather than at adapter construction. -/
theorem C3_eager_resolution_counterexample :
    R1 "bad.processors.broken" = none ∧
    Jinja2.init collab1 settings0 paramsBadProc = .ok jBadProc ∧
    Jinja2.context_processors R1 jBadProc =
      .error (.importError "bad.processors.broken") ∧
    Template.render R1 call0
      { template := trivialCompiled, backend := jBadProc, _debug := false }
      none (some req0) = .error (.importError "bad.processors.broken") :=
  ⟨rfl, rfl, rfl, rfl⟩

/-- Witness for the amended C3: an unresolvable filter reference fails
construction, while the unresolvable context-processor reference is
stored unresolved and fails only at first access and at render. -/
theorem C3_resolution_timing_amended_witness :
    (∃ e, Jinja2.init collab1 settings0 paramsBadFilter = .error e) ∧
    jBadProc._context_processors = ["bad.processors.broken"] ∧
    (∃ e, Jinja2.context_processors R1 jBadProc = .error e) ∧
    Template.render R1 call0
      { template := trivialCompiled, backend := jBadProc, _debug := false }
      none (some req0) = .error (.importError "bad.processors.broken") := by
  have h1 := C3_resolution_timing_amended collab1 settings0 paramsBadFilter
    "badf" "bad.processors.broken" "x" R1 call0 tmpl0 none req0
    (.importError "x")
  have h2 := C3_resolution_timing_amended collab1 settings0 paramsBadProc
    "n" "s" "bad.processors.broken" R1 call0
    { template := trivialCompiled, backend := jBadProc, _debug := false }
    none req0 (.importError "bad.processors.broken")
  refine ⟨h1.2.2.2.1 (Or.inl (by decide)) rfl, ?_, ?_, ?_⟩
  · exact h2.2.2.2.2.1 jBadProc rfl
  · exact h2.2.2.2.2.2.1 jBadProc (by decide) rfl
  · exact h2.2.2.2.2.2.2 rfl

end DjangoJinja
